import Mathlib

/-!
Shallow embedding of the `pulumi-s3-lambda-webstack` repository
(`src/index.js`: the `StaticFrontendWithLambdaBackend` component and the
`getDomainAndSubdomain` helper it requires).

Modelling conventions:
* JavaScript strings are `List Char` (`JStr`); `domain.split('.')` is
  `List.splitOn '.'`; `parts.join('.')` is `List.intercalate ['.']`;
  string concatenation is `++`.
* A thrown JavaScript `Error` is the `Except.error` case.
* Cloud resources are records of the argument values the code passes to
  their constructors; provider-assigned output attributes (ARNs, zone ids,
  endpoints, fqdns) are supplied by an explicit external environment `Env`.
* The asynchronous `aws.route53.getZone` lookup is modelled by threading a
  `RunState` that records every external zone lookup that is issued, in
  order, so that lookup counts and observed zone ids can be stated.
-/

abbrev JStr := List Char

deriving instance DecidableEq for Except

/-- Result shape of `getDomainAndSubdomain` (helpers: lines 222-226). -/
structure DomainParts where
  subdomain : JStr
  parentDomain : JStr
  deriving DecidableEq, Repr

/-- Embedding of `getDomainAndSubdomain` (helpers: lines 211-227):
split the domain on `'.'`; with fewer than two tokens throw
`No TLD found on ${domain}`; with exactly two tokens return an empty
subdomain and the whole input as parent domain; otherwise the first token
is the subdomain and the remaining tokens are rejoined with `'.'` and a
trailing `'.'` is appended. -/
def getDomainAndSubdomain (domain : JStr) : Except JStr DomainParts :=
  let parts := domain.splitOn '.'
  if parts.length < 2 then
    .error (("No TLD found on ").data ++ domain)
  else if parts.length = 2 then
    .ok { subdomain := [], parentDomain := domain }
  else
    .ok { subdomain := parts.headI,
          parentDomain := List.intercalate ['.'] parts.tail ++ ['.'] }

/-- The spec's rejoining operation, modelled from the spec's words
(§8: "subdomain + \".\" + parentDomain, minus trailing canonical
separator"): concatenate and drop a trailing `'.'` when one is present. -/
def stripTrailingDot (s : JStr) : JStr :=
  if s.getLast? = some '.' then s.dropLast else s

/-- Rejoining rule of spec §8, applied to a `DomainParts` value. -/
def rejoinSpec (p : DomainParts) : JStr :=
  stripTrailingDot (p.subdomain ++ ['.'] ++ p.parentDomain)

theorem length_splitOn_char (a : Char) (l : List Char) :
    (l.splitOn a).length = l.count a + 1 := by
  induction l with
  | nil => rfl
  | cons b l ih =>
    simp only [List.splitOn] at ih ⊢
    rw [List.splitOnP_cons]
    by_cases h : (b == a) = true
    · simp [h, List.count_cons, eq_of_beq h, ih]
    · have h' : ¬ (a = b) := fun e => h (by simp [e])
      simp [h, h', List.count_cons, ih]

theorem intercalate_cons_cons (sep a b : JStr) (l : List JStr) :
    List.intercalate sep (a :: b :: l) = a ++ sep ++ List.intercalate sep (b :: l) := by
  simp [List.intercalate, List.intersperse_cons_cons, List.append_assoc]

/-- Entry of `certificate.domainValidationOptions` (an output of the
`aws.acm.Certificate` resource, supplied by the certificate authority). -/
structure ValidationOption where
  resourceRecordName : JStr
  resourceRecordType : JStr
  resourceRecordValue : JStr
  deriving DecidableEq, Repr, Inhabited

/-- Arguments of an `aws.s3.Bucket` as created by `createLogsBucket`
(lines 140-146): pulumi resource name, `bucket` property, `acl`. -/
structure Bucket where
  resourceName : JStr
  bucket : JStr
  acl : JStr
  deriving DecidableEq, Repr

/-- Arguments of the validation `aws.route53.Record` (lines 164-170). -/
structure ValidationRecordRes where
  resourceName : JStr
  name : JStr
  zoneId : JStr
  recordType : JStr
  records : List JStr
  ttl : Nat
  deriving DecidableEq, Repr

/-- Arguments of the `aws.acm.Certificate` resource (lines 154-157),
together with its provider-assigned `arn` output. -/
structure CertificateRes where
  resourceName : JStr
  domainName : JStr
  validationMethod : JStr
  arn : JStr
  domainValidationOptions : List ValidationOption
  deriving DecidableEq, Repr

/-- Arguments of the `aws.acm.CertificateValidation` resource
(lines 172-176). -/
structure CertValidationRes where
  resourceName : JStr
  certificateArn : JStr
  validationRecordFqdns : List JStr
  deriving DecidableEq, Repr

/-- Alias target entry of the alias record (lines 193-199). -/
structure AliasTarget where
  name : JStr
  zoneId : JStr
  evaluateTargetHealth : Bool
  deriving DecidableEq, Repr

/-- Arguments of the alias `aws.route53.Record` (lines 187-200). -/
structure AliasRecordRes where
  resourceName : JStr
  name : JStr
  zoneId : JStr
  recordType : JStr
  aliases : List AliasTarget
  deriving DecidableEq, Repr

/-- Forwarded-values block of a cache behavior. -/
structure ForwardedValues where
  cookiesForward : JStr
  queryString : Bool
  deriving DecidableEq, Repr

/-- The `defaultCacheBehavior` block (lines 68-83). -/
structure DefaultCacheBehavior where
  targetOriginId : JStr
  viewerProtocolPolicy : JStr
  allowedMethods : List JStr
  cachedMethods : List JStr
  forwardedValues : ForwardedValues
  minTtl : Nat
  defaultTtl : Nat
  maxTtl : Nat
  deriving DecidableEq, Repr

/-- An `orderedCacheBehaviors` entry (lines 85-104). -/
structure OrderedCacheBehavior where
  pathPattern : JStr
  allowedMethods : List JStr
  cachedMethods : List JStr
  targetOriginId : JStr
  defaultTtl : Nat
  minTtl : Nat
  maxTtl : Nat
  forwardedValues : ForwardedValues
  viewerProtocolPolicy : JStr
  deriving DecidableEq, Repr

/-- An `origins` entry (lines 42-64); `originPath` is present only on the
api origin. -/
structure OriginConfig where
  originId : JStr
  domainName : JStr
  originPath : Option JStr
  originProtocolPolicy : JStr
  httpPort : Nat
  httpsPort : Nat
  originSslProtocols : List JStr
  deriving DecidableEq, Repr

/-- A `customErrorResponses` entry (lines 108-119). -/
structure CustomErrorResponse where
  errorCode : Nat
  responseCode : Nat
  responsePagePath : JStr
  deriving DecidableEq, Repr

/-- The `viewerCertificate` block (lines 127-130). -/
structure ViewerCertificate where
  acmCertificateArn : JStr
  sslSupportMethod : JStr
  deriving DecidableEq, Repr

/-- The `loggingConfig` block (lines 132-136); `prefixValue` embeds the
source field named `prefix`. -/
structure LoggingConfig where
  bucket : JStr
  includeCookies : Bool
  prefixValue : JStr
  deriving DecidableEq, Repr

/-- Arguments of the `aws.cloudfront.Distribution` (lines 38-137), plus
its provider-assigned `domainName`/`hostedZoneId` outputs, which the code
reads on lines 195-196. -/
structure DistributionRes where
  resourceName : JStr
  enabled : Bool
  aliases : List JStr
  origins : List OriginConfig
  defaultRootObject : JStr
  defaultCacheBehavior : DefaultCacheBehavior
  orderedCacheBehaviors : List OrderedCacheBehavior
  priceClass : JStr
  customErrorResponses : List CustomErrorResponse
  geoRestrictionType : JStr
  viewerCertificate : ViewerCertificate
  loggingConfig : LoggingConfig
  domainName : JStr
  hostedZoneId : JStr
  deriving DecidableEq, Repr

/-- External collaborator: the content `aws.s3.Bucket` passed in by the
caller; the code reads its `arn` and `websiteEndpoint` outputs. -/
structure ContentBucket where
  arn : JStr
  websiteEndpoint : JStr
  deriving DecidableEq, Repr

/-- External collaborator: the API gateway; the code reads its `url`. -/
structure ApiGateway where
  url : JStr
  deriving DecidableEq, Repr

/-- The external world: provider-assigned outputs and external lookups.
`zoneOf` is the deterministic DNS registry behind `aws.route53.getZone`. -/
structure Env where
  zoneOf : JStr → JStr
  certificateArnOf : JStr → JStr
  validationOptionsOf : JStr → List ValidationOption
  fqdnOf : ValidationRecordRes → JStr
  bucketDomainNameOf : Bucket → JStr
  cloudfrontDomainName : JStr
  cloudfrontHostedZoneId : JStr

/-- Per-run state: the external zone lookups issued so far, in order.
Each call of `aws.route53.getZone` appends one entry. -/
structure RunState where
  lookups : List JStr
  deriving DecidableEq, Repr

/-- Embedding of an `aws.route53.getZone({name}).then(z => z.zoneId)`
call: one external lookup is issued and the registry answers. -/
def getZone (env : Env) (name : JStr) (st : RunState) : JStr × RunState :=
  (env.zoneOf name, { lookups := st.lookups ++ [name] })

/-- The constant `TEN_MINUTES` (line 6). -/
def TEN_MINUTES : Nat := 60 * 10

/-- Host extraction applied to the api gateway url (line 54): the
replacement with pattern `https?://([^/]*).*` keeps the bare host when
the url starts with an http or https scheme and otherwise leaves the
string unchanged. -/
def apiHostOf (url : JStr) : JStr :=
  if (("https://").data).isPrefixOf url then (url.drop 8).takeWhile (fun c => c != '/')
  else if (("http://").data).isPrefixOf url then (url.drop 7).takeWhile (fun c => c != '/')
  else url

/-- Embedding of `createLogsBucket` (lines 140-146). -/
def createLogsBucket (name targetDomain : JStr) : Bucket :=
  { resourceName := name ++ ("-front-logs").data
    bucket := targetDomain ++ ("-logs").data
    acl := ("private").data }

/-- Embedding of `createCloudFrontDistribution` (lines 37-138). -/
def createCloudFrontDistribution (env : Env) (name targetDomain : JStr)
    (contentBucket : ContentBucket) (apiGateway : ApiGateway)
    (certificateArn : JStr) (logsBucket : Bucket) : DistributionRes :=
  { resourceName := name ++ ("-cloudfront").data
    enabled := true
    aliases := [targetDomain]
    origins :=
      [ { originId := contentBucket.arn
          domainName := contentBucket.websiteEndpoint
          originPath := none
          originProtocolPolicy := ("http-only").data
          httpPort := 80
          httpsPort := 443
          originSslProtocols := [("TLSv1.2").data] },
        { originId := ("api").data
          domainName := apiHostOf apiGateway.url
          originPath := some (("/stage").data)
          originProtocolPolicy := ("https-only").data
          httpPort := 80
          httpsPort := 443
          originSslProtocols := [("TLSv1.2").data] } ]
    defaultRootObject := ("index.html").data
    defaultCacheBehavior :=
      { targetOriginId := contentBucket.arn
        viewerProtocolPolicy := ("redirect-to-https").data
        allowedMethods := [("GET").data, ("HEAD").data, ("OPTIONS").data]
        cachedMethods := [("GET").data, ("HEAD").data, ("OPTIONS").data]
        forwardedValues := { cookiesForward := ("none").data, queryString := false }
        minTtl := 0
        defaultTtl := TEN_MINUTES
        maxTtl := TEN_MINUTES }
    orderedCacheBehaviors :=
      [ { pathPattern := ("/api/*").data
          allowedMethods := [("DELETE").data, ("GET").data, ("HEAD").data,
            ("OPTIONS").data, ("PATCH").data, ("POST").data, ("PUT").data]
          cachedMethods := [("HEAD").data, ("GET").data, ("OPTIONS").data]
          targetOriginId := ("api").data
          defaultTtl := 0
          minTtl := 0
          maxTtl := 0
          forwardedValues := { queryString := true, cookiesForward := ("all").data }
          viewerProtocolPolicy := ("redirect-to-https").data } ]
    priceClass := ("PriceClass_100").data
    customErrorResponses :=
      [ { errorCode := 404, responseCode := 404, responsePagePath := ("/404.html").data },
        { errorCode := 403, responseCode := 200, responsePagePath := ("/index.html").data } ]
    geoRestrictionType := ("none").data
    viewerCertificate := { acmCertificateArn := certificateArn, sslSupportMethod := ("sni-only").data }
    loggingConfig :=
      { bucket := env.bucketDomainNameOf logsBucket
        includeCookies := false
        prefixValue := targetDomain ++ ("/").data }
    domainName := env.cloudfrontDomainName
    hostedZoneId := env.cloudfrontHostedZoneId }

/-- Everything `provisionCertificate` builds, plus the arn it returns. -/
structure CertProvisionResult where
  certificate : CertificateRes
  hostedZoneId : JStr
  validationRecord : ValidationRecordRes
  certificateValidation : CertValidationRes
  certificateArn : JStr
  deriving DecidableEq, Repr

/-- Embedding of `provisionCertificate` (lines 148-179): request the
certificate, resolve the parent-domain zone, publish the first
domain-validation option as a DNS record, build the validation resource
from the record fqdn, and return its certificateArn output. -/
def provisionCertificate (env : Env) (name targetDomain : JStr) (st : RunState) :
    Except JStr (CertProvisionResult × RunState) :=
  let certificate : CertificateRes :=
    { resourceName := name ++ ("-certificate").data
      domainName := targetDomain
      validationMethod := ("DNS").data
      arn := env.certificateArnOf targetDomain
      domainValidationOptions := env.validationOptionsOf targetDomain }
  match getDomainAndSubdomain targetDomain with
  | .error e => .error e
  | .ok domainParts =>
    let zr := getZone env domainParts.parentDomain st
    let opt := certificate.domainValidationOptions.headI
    let certificateValidationDomain : ValidationRecordRes :=
      { resourceName := name ++ ("-validation").data
        name := opt.resourceRecordName
        zoneId := zr.1
        recordType := opt.resourceRecordType
        records := [opt.resourceRecordValue]
        ttl := TEN_MINUTES }
    let certificateValidation : CertValidationRes :=
      { resourceName := name ++ ("-certificateValidation").data
        certificateArn := certificate.arn
        validationRecordFqdns := [env.fqdnOf certificateValidationDomain] }
    .ok ({ certificate := certificate
           hostedZoneId := zr.1
           validationRecord := certificateValidationDomain
           certificateValidation := certificateValidation
           certificateArn := certificateValidation.certificateArn }, zr.2)

/-- Embedding of `createAliasRecord` (lines 181-201). -/
def createAliasRecord (env : Env) (name targetDomain : JStr)
    (distribution : DistributionRes) (st : RunState) :
    Except JStr (AliasRecordRes × RunState) :=
  match getDomainAndSubdomain targetDomain with
  | .error e => .error e
  | .ok domainParts =>
    let zr := getZone env domainParts.parentDomain st
    .ok ({ resourceName := name
           name := domainParts.subdomain
           zoneId := zr.1
           recordType := ("A").data
           aliases := [{ name := distribution.domainName
                         zoneId := distribution.hostedZoneId
                         evaluateTargetHealth := true }] }, zr.2)

/-- The instance fields of the component object. All three are still
unassigned (undefined) when `registerOutputs` runs on lines 26-30; they
are assigned on lines 32-34. -/
structure This where
  certificateArn : Option JStr
  cloudFrontDistribution : Option DistributionRes
  aliasRecord : Option AliasRecordRes
  deriving DecidableEq, Repr

/-- The value passed to `this.registerOutputs` (lines 26-30). -/
structure RegisteredOutputs where
  certificateArn : JStr
  aliasRecord : Option AliasRecordRes
  cloudFrontDistribution : DistributionRes
  deriving DecidableEq, Repr

/-- Everything a successful constructor run produces. -/
structure ComponentResult where
  logsBucket : Bucket
  certProvision : CertProvisionResult
  cloudFrontDistribution : DistributionRes
  aliasRecord : AliasRecordRes
  registeredOutputs : RegisteredOutputs
  self : This
  finalState : RunState
  deriving DecidableEq, Repr

/-- Embedding of the `StaticFrontendWithLambdaBackend` constructor
(lines 8-35): default the logs bucket, provision the certificate, compose
the distribution, create the alias record, call `registerOutputs` — note
that at that point `this.aliasRecord` is still unassigned, so the
registered aliasRecord is `none` — and then assign the instance fields. -/
def staticFrontendWithLambdaBackend (env : Env) (name targetDomain : JStr)
    (contentBucket : ContentBucket) (apiGateway : ApiGateway)
    (logsBucketArg : Option Bucket) : Except JStr ComponentResult :=
  let logsBucket :=
    match logsBucketArg with
    | none => createLogsBucket name targetDomain
    | some b => b
  match provisionCertificate env name targetDomain { lookups := [] } with
  | .error e => .error e
  | .ok (cert, st1) =>
    let cloudFrontDistribution :=
      createCloudFrontDistribution env name targetDomain contentBucket apiGateway
        cert.certificateArn logsBucket
    match createAliasRecord env name targetDomain cloudFrontDistribution st1 with
    | .error e => .error e
    | .ok (aliasRecord, st2) =>
      let selfAtRegisterTime : This :=
        { certificateArn := none, cloudFrontDistribution := none, aliasRecord := none }
      let registeredOutputs : RegisteredOutputs :=
        { certificateArn := cert.certificateArn
          aliasRecord := selfAtRegisterTime.aliasRecord
          cloudFrontDistribution := cloudFrontDistribution }
      .ok { logsBucket := logsBucket
            certProvision := cert
            cloudFrontDistribution := cloudFrontDistribution
            aliasRecord := aliasRecord
            registeredOutputs := registeredOutputs
            self := { certificateArn := some cert.certificateArn
                      cloudFrontDistribution := some cloudFrontDistribution
                      aliasRecord := some aliasRecord }
            finalState := st2 }

/-- A concrete external world used to instantiate the theorems. -/
def exampleEnv : Env :=
  { zoneOf := fun n => ("zone-").data ++ n
    certificateArnOf := fun d => ("arn:acm:").data ++ d
    validationOptionsOf := fun d =>
      [{ resourceRecordName := ("_v.").data ++ d
         resourceRecordType := ("CNAME").data
         resourceRecordValue := ("val-").data ++ d }]
    fqdnOf := fun r => r.name ++ ("=fqdn").data
    bucketDomainNameOf := fun b => b.bucket ++ (".s3.amazonaws.com").data
    cloudfrontDomainName := ("d123.cloudfront.net").data
    cloudfrontHostedZoneId := ("Z2FDTNDATAQYW2").data }

/-- A concrete caller-supplied content bucket. -/
def exampleContentBucket : ContentBucket :=
  { arn := ("arn:s3:content").data
    websiteEndpoint := ("content.s3-website.amazonaws.com").data }

/-- A concrete caller-supplied api gateway. -/
def exampleApiGateway : ApiGateway :=
  { url := ("https://abc.execute-api.us-east-1.amazonaws.com/stage").data }

/-- A concrete orchestration run with the logs target omitted. -/
def exampleRun : Except JStr ComponentResult :=
  staticFrontendWithLambdaBackend exampleEnv (("web").data) (("www.example.com").data)
    exampleContentBucket exampleApiGateway none

theorem splitOn_two_le_iff_mem (domain : JStr) :
    '.' ∈ domain ↔ 2 ≤ (domain.splitOn '.').length := by
  rw [length_splitOn_char]
  constructor
  · intro hm
    have h0 : domain.count '.' ≠ 0 := fun h0 => (List.count_eq_zero.mp h0) hm
    omega
  · intro h2
    by_contra hm
    have h0 : domain.count '.' = 0 := List.count_eq_zero.mpr hm
    omega

theorem split_ok_two (domain p q : JStr) (h : domain.splitOn '.' = [p, q]) :
    getDomainAndSubdomain domain = .ok { subdomain := [], parentDomain := domain } := by
  simp only [getDomainAndSubdomain, h]
  rw [if_neg (by simp), if_pos (by simp)]

theorem split_ok_three (domain p q r : JStr) (t : List JStr)
    (h : domain.splitOn '.' = p :: q :: r :: t) :
    getDomainAndSubdomain domain =
      .ok { subdomain := p, parentDomain := List.intercalate ['.'] (q :: r :: t) ++ ['.'] } := by
  simp only [getDomainAndSubdomain, h]
  rw [if_neg (by simp), if_neg (by simp)]
  simp

theorem stripTrailingDot_concat (l : JStr) : stripTrailingDot (l ++ ['.']) = l := by
  unfold stripTrailingDot
  rw [List.getLast?_concat, if_pos rfl, List.dropLast_concat]

example : getDomainAndSubdomain (("www.example.com").data) =
    .ok { subdomain := ("www").data, parentDomain := ("example.com.").data } := by decide

example : getDomainAndSubdomain (("example.com").data) =
    .ok { subdomain := [], parentDomain := ("example.com").data } := by decide

example : getDomainAndSubdomain (("localhost").data) =
    .error (("No TLD found on localhost").data) := by decide

/-- C1: for an input splitting into at least three '.'-separated tokens,
`getDomainAndSubdomain` returns the first token as the subdomain and the
remaining tokens rejoined with '.' plus a trailing '.' as the parent
domain; for an input with exactly two tokens it returns an empty
subdomain and the whole input string as the parent domain. -/
theorem C1_split_shape (domain p : JStr) (rest : List JStr)
    (h : domain.splitOn '.' = p :: rest) :
    (2 ≤ rest.length →
      getDomainAndSubdomain domain =
        .ok { subdomain := p, parentDomain := List.intercalate ['.'] rest ++ ['.'] })
    ∧ (rest.length = 1 →
      getDomainAndSubdomain domain = .ok { subdomain := [], parentDomain := domain }) := by
  constructor
  · intro h2
    rcases rest with _ | ⟨q, _ | ⟨r, t⟩⟩
    · simp at h2
    · simp at h2
    · exact split_ok_three domain p q r t h
  · intro h1
    rcases rest with _ | ⟨q, _ | ⟨r, t⟩⟩
    · simp at h1
    · exact split_ok_two domain p q h
    · simp at h1

/-- Witness for C1 at `www.example.com`. -/
theorem C1_split_shape_witness :
    getDomainAndSubdomain (("www.example.com").data) =
      .ok { subdomain := ("www").data,
            parentDomain := List.intercalate ['.'] [("example").data, ("com").data] ++ ['.'] } :=
  (C1_split_shape (("www.example.com").data) (("www").data)
    [("example").data, ("com").data] (by decide)).1 (by decide)

/-- C2 as stated fails at `a.b`: the input has one '.' separator, the
splitter returns an empty subdomain with the whole input as parent
domain, and the spec's rejoining rule then yields `.a.b`, not `a.b`. -/
theorem C2_rejoin_counterexample :
    '.' ∈ (("a.b").data)
    ∧ getDomainAndSubdomain (("a.b").data) =
        .ok { subdomain := [], parentDomain := ("a.b").data }
    ∧ rejoinSpec { subdomain := [], parentDomain := ("a.b").data } ≠ ("a.b").data :=
  ⟨by decide, by decide, by decide⟩

/-- C2 (amended): for every domain splitting into at least three tokens,
rejoining the splitter's result as subdomain + "." + parentDomain with
the trailing canonical separator removed reconstructs the input; for a
domain with exactly two tokens the parent domain alone is the unmodified
input and the subdomain is empty (so the rejoining rule does not apply
verbatim there). -/
theorem C2_rejoin_amended (domain : JStr) :
    (3 ≤ (domain.splitOn '.').length →
      ∀ r, getDomainAndSubdomain domain = .ok r → rejoinSpec r = domain)
    ∧ ((domain.splitOn '.').length = 2 →
      getDomainAndSubdomain domain = .ok { subdomain := [], parentDomain := domain }) := by
  constructor
  · intro h3 r hr
    rcases e : domain.splitOn '.' with _ | ⟨p, _ | ⟨q, _ | ⟨s, t⟩⟩⟩ <;> rw [e] at h3
    · simp at h3
    · simp at h3
    · simp at h3
    · rw [split_ok_three domain p q s t e] at hr
      have hr' : r = ⟨p, List.intercalate ['.'] (q :: s :: t) ++ ['.']⟩ := by
        injection hr with hr'; exact hr'.symm
      subst hr'
      show stripTrailingDot (p ++ ['.'] ++ (List.intercalate ['.'] (q :: s :: t) ++ ['.'])) = domain
      rw [← List.append_assoc, stripTrailingDot_concat]
      have hjoin : List.intercalate ['.'] (p :: q :: s :: t) =
          p ++ ['.'] ++ List.intercalate ['.'] (q :: s :: t) :=
        intercalate_cons_cons ['.'] p q (s :: t)
      rw [← hjoin]
      have := List.intercalate_splitOn domain '.'
      rw [e] at this
      exact this
  · intro h2
    rcases e : domain.splitOn '.' with _ | ⟨p, _ | ⟨q, _ | ⟨s, t⟩⟩⟩ <;> rw [e] at h2 <;>
      simp at h2
    exact split_ok_two domain p q e

/-- Witness for C2 (amended) at `a.b.c`. -/
theorem C2_rejoin_amended_witness :
    rejoinSpec { subdomain := ("a").data, parentDomain := ("b.c.").data } = ("a.b.c").data :=
  (C2_rejoin_amended (("a.b.c").data)).1 (by decide) _ (by decide)

/-- C3: `getDomainAndSubdomain` fails, with the error string
`No TLD found on` followed by the input, exactly when the input has no
'.' separator, and succeeds for every input with at least one separator
(purity and determinism hold by construction: it is a total function of
its input). -/
theorem C3_error_iff_no_separator (domain : JStr) :
    (getDomainAndSubdomain domain = .error (("No TLD found on ").data ++ domain)
      ↔ '.' ∉ domain)
    ∧ ('.' ∈ domain → ∃ r, getDomainAndSubdomain domain = .ok r) := by
  constructor
  · constructor
    · intro h hmem
      have h2 := (splitOn_two_le_iff_mem domain).mp hmem
      simp only [getDomainAndSubdomain] at h
      rw [if_neg (by omega)] at h
      by_cases hl : (domain.splitOn '.').length = 2
      · rw [if_pos hl] at h; exact absurd h (by simp)
      · rw [if_neg hl] at h; exact absurd h (by simp)
    · intro hmem
      have h0 : domain.count '.' = 0 := List.count_eq_zero.mpr hmem
      have hlen := length_splitOn_char '.' domain
      simp only [getDomainAndSubdomain]
      rw [if_pos (by omega)]
  · intro hmem
    have h2 := (splitOn_two_le_iff_mem domain).mp hmem
    simp only [getDomainAndSubdomain]
    rw [if_neg (by omega)]
    by_cases hl : (domain.splitOn '.').length = 2
    · rw [if_pos hl]; exact ⟨_, rfl⟩
    · rw [if_neg hl]; exact ⟨_, rfl⟩

/-- Witness for C3 at `localhost`. -/
theorem C3_error_iff_no_separator_witness :
    getDomainAndSubdomain (("localhost").data) =
      .error (("No TLD found on ").data ++ ("localhost").data) :=
  (C3_error_iff_no_separator (("localhost").data)).1.mpr (by decide)

/-- C4 as stated fails at the valid input `example.com`: the returned
parent domain is the unmodified input, which has no trailing '.'. -/
theorem C4_trailing_dot_counterexample :
    getDomainAndSubdomain (("example.com").data) =
      .ok { subdomain := [], parentDomain := ("example.com").data }
    ∧ (("example.com").data).getLast? ≠ some '.' :=
  ⟨by decide, by decide⟩

/-- C4 (amended): for every accepted input with at least three tokens the
parent domain is canonicalized with a trailing '.'; for an accepted input
with exactly two tokens the parent domain is the unmodified input (no
trailing separator is appended). -/
theorem C4_trailing_dot_amended (domain : JStr) (r : DomainParts)
    (h : getDomainAndSubdomain domain = .ok r) :
    (3 ≤ (domain.splitOn '.').length → r.parentDomain.getLast? = some '.')
    ∧ ((domain.splitOn '.').length = 2 → r.parentDomain = domain) := by
  constructor
  · intro h3
    rcases e : domain.splitOn '.' with _ | ⟨p, _ | ⟨q, _ | ⟨s, t⟩⟩⟩ <;> rw [e] at h3
    · simp at h3
    · simp at h3
    · simp at h3
    · rw [split_ok_three domain p q s t e] at h
      have h' : r = ⟨p, List.intercalate ['.'] (q :: s :: t) ++ ['.']⟩ := by
        injection h with h'; exact h'.symm
      subst h'
      exact List.getLast?_concat _
  · intro h2
    rcases e : domain.splitOn '.' with _ | ⟨p, _ | ⟨q, _ | ⟨s, t⟩⟩⟩ <;> rw [e] at h2 <;>
      simp at h2
    rw [split_ok_two domain p q e] at h
    have h' : r = ⟨[], domain⟩ := by
      injection h with h'; exact h'.symm
    subst h'
    rfl

/-- Witness for C4 (amended) at `www.example.com`. -/
theorem C4_trailing_dot_amended_witness :
    (("example.com.").data).getLast? = some '.' :=
  (C4_trailing_dot_amended (("www.example.com").data)
    { subdomain := ("www").data, parentDomain := ("example.com.").data }
    (by decide)).1 (by decide)

theorem sf_ok_parts (env : Env) (name targetDomain : JStr) (cb : ContentBucket)
    (ag : ApiGateway) (lb : Option Bucket) (parts : DomainParts)
    (hparts : getDomainAndSubdomain targetDomain = .ok parts) :
    ∃ res, staticFrontendWithLambdaBackend env name targetDomain cb ag lb = .ok res
      ∧ res.logsBucket = (match lb with
          | none => createLogsBucket name targetDomain
          | some b => b)
      ∧ res.certProvision.hostedZoneId = env.zoneOf parts.parentDomain
      ∧ res.aliasRecord.zoneId = env.zoneOf parts.parentDomain
      ∧ res.aliasRecord.name = parts.subdomain
      ∧ res.finalState.lookups = [parts.parentDomain, parts.parentDomain]
      ∧ res.registeredOutputs.aliasRecord = none
      ∧ res.self.aliasRecord = some res.aliasRecord := by
  simp only [staticFrontendWithLambdaBackend, provisionCertificate, createAliasRecord,
    getZone, hparts]
  exact ⟨_, rfl, rfl, rfl, rfl, rfl, rfl, rfl, rfl⟩

/-- C5 as stated fails: with the logs target omitted the bucket name of
the provisioned logs bucket is derived from the target domain, not from
the component name: at name `web` and target domain `www.example.com` the
bucket name is `www.example.com-logs`, not `web-logs`. -/
theorem C5_logs_bucket_counterexample :
    (exampleRun.map fun r => r.logsBucket.bucket) = .ok (("www.example.com-logs").data)
    ∧ (("www.example.com-logs").data) ≠ ("web").data ++ ("-logs").data :=
  ⟨by decide, by decide⟩

/-- C5 (amended): whenever the caller omits the logs target and the run
succeeds, the Orchestrator provisions a private logs bucket whose bucket
name is the target domain followed by `-logs`; its pulumi resource name
is the component name followed by `-front-logs`. -/
theorem C5_logs_bucket_amended (env : Env) (name targetDomain : JStr)
    (cb : ContentBucket) (ag : ApiGateway) (parts : DomainParts)
    (hparts : getDomainAndSubdomain targetDomain = .ok parts) :
    (staticFrontendWithLambdaBackend env name targetDomain cb ag none).map
        (fun r => r.logsBucket) =
      .ok { resourceName := name ++ ("-front-logs").data
            bucket := targetDomain ++ ("-logs").data
            acl := ("private").data } := by
  obtain ⟨res, hres, hlb, -⟩ := sf_ok_parts env name targetDomain cb ag none parts hparts
  rw [hres, Except.map]
  simp only [hlb, createLogsBucket]

/-- Witness for C5 (amended) at the concrete example run. -/
theorem C5_logs_bucket_amended_witness :
    (exampleRun.map fun r => r.logsBucket) =
      .ok { resourceName := ("web").data ++ ("-front-logs").data
            bucket := ("www.example.com").data ++ ("-logs").data
            acl := ("private").data } :=
  C5_logs_bucket_amended exampleEnv (("web").data) (("www.example.com").data)
    exampleContentBucket exampleApiGateway
    { subdomain := ("www").data, parentDomain := ("example.com.").data } (by decide)

/-- C6: at a concrete successful run the constructor does create an
alias record (name `www`) and assigns it to the instance field, but the
value it registers as the `aliasRecord` output is `this.aliasRecord`
read before that field is assigned — undefined (`none`) — so the
registered output does not equal the created alias record. -/
theorem C6_registered_alias_undefined :
    (exampleRun.map fun r => r.registeredOutputs.aliasRecord) = .ok none
    ∧ (exampleRun.map fun r => r.aliasRecord.name) = .ok (("www").data)
    ∧ (exampleRun.map fun r => r.self.aliasRecord)
        ≠ (exampleRun.map fun r => r.registeredOutputs.aliasRecord) :=
  ⟨by decide, by decide, by decide⟩

/-- C7 as stated fails: a concrete run issues two external zone lookups
(one in the certificate provisioner, one in the alias publisher), not at
most one. -/
theorem C7_zone_lookup_counterexample :
    (exampleRun.map fun r => r.finalState.lookups.length) = .ok 2 ∧ ¬ (2 ≤ 1) :=
  ⟨by decide, by decide⟩

/-- C7 (amended): within one successful run the two zone resolutions for
the same parent domain observe the same zone identifier (the external
registry is deterministic per name), but each consumer issues its own
lookup: exactly two external zone lookups are triggered, both for that
one parent domain — the result is not memoized. -/
theorem C7_zone_lookup_amended (env : Env) (name targetDomain : JStr)
    (cb : ContentBucket) (ag : ApiGateway) (lb : Option Bucket) (parts : DomainParts)
    (hparts : getDomainAndSubdomain targetDomain = .ok parts) :
    (staticFrontendWithLambdaBackend env name targetDomain cb ag lb).map
        (fun r => (r.certProvision.hostedZoneId, r.aliasRecord.zoneId, r.finalState.lookups)) =
      .ok (env.zoneOf parts.parentDomain, env.zoneOf parts.parentDomain,
           [parts.parentDomain, parts.parentDomain]) := by
  obtain ⟨res, hres, hlb, hcz, haz, han, hlk, hreg, hself⟩ :=
    sf_ok_parts env name targetDomain cb ag lb parts hparts
  rw [hres, Except.map]
  simp only [hcz, haz, hlk]

/-- Witness for C7 (amended) at the concrete example run. -/
theorem C7_zone_lookup_amended_witness :
    (exampleRun.map
        (fun r => (r.certProvision.hostedZoneId, r.aliasRecord.zoneId, r.finalState.lookups))) =
      .ok (exampleEnv.zoneOf (("example.com.").data), exampleEnv.zoneOf (("example.com.").data),
           [("example.com.").data, ("example.com.").data]) :=
  C7_zone_lookup_amended exampleEnv (("web").data) (("www.example.com").data)
    exampleContentBucket exampleApiGateway none
    { subdomain := ("www").data, parentDomain := ("example.com.").data } (by decide)

/-- The resources one constructor run owns. -/
inductive Res where
  | logsBucket
  | certificate
  | validationRecord
  | certificateValidation
  | distribution
  | aliasRecord
  deriving DecidableEq, Repr

/-- Dependency edges of the run's resource graph: `d ∈ deps r` when an
input of `r` references an output of `d` in the code. The validation
record reads `certificate.domainValidationOptions` (lines 165-168); the
certificate validation reads `certificate.arn` and the record's `fqdn`
(lines 174-175); the distribution reads the validation's
`certificateArn` (line 128, via line 16) and the logs bucket's
`bucketDomainName` (line 133); the alias record reads the distribution's
`domainName` and `hostedZoneId` (lines 195-196). -/
def deps : Res → List Res
  | .logsBucket => []
  | .certificate => []
  | .validationRecord => [.certificate]
  | .certificateValidation => [.certificate, .validationRecord]
  | .distribution => [.certificateValidation, .logsBucket]
  | .aliasRecord => [.distribution]

/-- All owned resources. -/
def allRes : List Res :=
  [.logsBucket, .certificate, .validationRecord, .certificateValidation,
   .distribution, .aliasRecord]

/-- A schedule of the run: an order in which resource creations complete
that contains every owned resource and respects every dependency edge
(a deferred input can only be consumed after its producer exists). -/
def ValidSchedule (l : List Res) : Prop :=
  (∀ r ∈ allRes, r ∈ l) ∧ ∀ r ∈ l, ∀ d ∈ deps r, l.indexOf d < l.indexOf r

/-- C8: in every dependency-respecting schedule of a successful run, the
validation record is created strictly before the certificate validation
completes, and strictly before the distribution — the consumer of the
exposed certificate ARN — as well. -/
theorem C8_validation_record_first (l : List Res) (h : ValidSchedule l) :
    l.indexOf Res.validationRecord < l.indexOf Res.certificateValidation
    ∧ l.indexOf Res.validationRecord < l.indexOf Res.distribution := by
  have hcv : Res.certificateValidation ∈ l := h.1 _ (by simp [allRes])
  have hd : Res.distribution ∈ l := h.1 _ (by simp [allRes])
  have h1 : l.indexOf Res.validationRecord < l.indexOf Res.certificateValidation :=
    h.2 _ hcv _ (by simp [deps])
  have h2 : l.indexOf Res.certificateValidation < l.indexOf Res.distribution :=
    h.2 _ hd _ (by simp [deps])
  exact ⟨h1, Nat.lt_trans h1 h2⟩

/-- Witness for C8: the code's sequential order is a valid schedule. -/
theorem C8_validation_record_first_witness :
    ValidSchedule allRes
    ∧ allRes.indexOf Res.validationRecord < allRes.indexOf Res.certificateValidation
    ∧ allRes.indexOf Res.validationRecord < allRes.indexOf Res.distribution :=
  ⟨by unfold ValidSchedule; decide,
   C8_validation_record_first allRes (by unfold ValidSchedule; decide)⟩

/-- C9: the composed distribution remaps an upstream 404 to a 404
response serving /404.html and an upstream 403 to a 200 response serving
/index.html, and these two are the only custom error remappings. -/
theorem C9_custom_error_responses (env : Env) (name targetDomain : JStr)
    (cb : ContentBucket) (ag : ApiGateway) (certificateArn : JStr) (lb : Bucket) :
    (createCloudFrontDistribution env name targetDomain cb ag certificateArn
        lb).customErrorResponses =
      [ { errorCode := 404, responseCode := 404, responsePagePath := ("/404.html").data },
        { errorCode := 403, responseCode := 200, responsePagePath := ("/index.html").data } ] :=
  rfl

/-- C10: for a target domain with exactly one '.' separator the alias
record is created without failing, with the empty string as its record
name (a zone-apex record), in the zone resolved for the whole input
domain. -/
theorem C10_apex_alias (env : Env) (name domain : JStr) (dist : DistributionRes)
    (st : RunState) (h : domain.count '.' = 1) :
    createAliasRecord env name domain dist st =
      .ok ({ resourceName := name
             name := []
             zoneId := env.zoneOf domain
             recordType := ("A").data
             aliases := [{ name := dist.domainName
                           zoneId := dist.hostedZoneId
                           evaluateTargetHealth := true }] },
           { lookups := st.lookups ++ [domain] }) := by
  have hlen : (domain.splitOn '.').length = 2 := by rw [length_splitOn_char]; omega
  rcases e : domain.splitOn '.' with _ | ⟨p, _ | ⟨q, _ | ⟨s, t⟩⟩⟩ <;> rw [e] at hlen <;>
    simp at hlen
  have hsplit := split_ok_two domain p q e
  simp only [createAliasRecord, hsplit, getZone]

/-- A concrete distribution used to instantiate C10's theorem. -/
def exampleDistribution : DistributionRes :=
  createCloudFrontDistribution exampleEnv (("web").data) (("example.com").data)
    exampleContentBucket exampleApiGateway (("arn").data)
    (createLogsBucket (("web").data) (("example.com").data))

/-- Witness for C10 at `example.com`. -/
theorem C10_apex_alias_witness :
    createAliasRecord exampleEnv (("aliasRec").data) (("example.com").data)
        exampleDistribution { lookups := [] } =
      .ok ({ resourceName := ("aliasRec").data
             name := []
             zoneId := exampleEnv.zoneOf (("example.com").data)
             recordType := ("A").data
             aliases := [{ name := exampleDistribution.domainName
                           zoneId := exampleDistribution.hostedZoneId
                           evaluateTargetHealth := true }] },
           { lookups := [("example.com").data] }) := by
  have h := C10_apex_alias exampleEnv (("aliasRec").data) (("example.com").data)
    exampleDistribution { lookups := [] } (by decide)
  simpa using h
